import Mathlib

/-!
Verification development for the ozlistings-chat profile-extraction and
conversation-state engine (`src/database.py`, `src/profiling.py`).

The Python code is shallowly embedded: each Python function that the claims
touch becomes a Lean definition with the same name (modulo Lean lexical
rules), translated clause by clause from the source.  Database sessions are
replaced by explicit state passing: the per-user slice of the store is an
`Option UserProfile` (`none` = no row for this user).  Timestamp metadata
columns (`created_at`, `updated_at`) are not modelled; no claim's statement
depends on their values, only on the structured fields.
-/

/-- A decimal number `m / 10^e`.  This models the Python float values the
code handles: every number reaching the core is produced by `float()` on a
decimal digit string (or is a decimal literal), so an exact decimal
representation is faithful.  Values are kept normalized (no trailing
factor of 10 in `m` while `e > 0`), so structural equality coincides with
numeric equality. -/
structure Dec where
  m : Int
  e : Nat
deriving DecidableEq, Repr

/-- Strip common factors of 10 from `m / 10^e` (fuel-based on `e`). -/
def Dec.normAux : Nat → Int → Nat → Dec
  | 0, m, e => ⟨m, e⟩
  | fuel + 1, m, e =>
      match e with
      | 0 => ⟨m, 0⟩
      | e' + 1 => if m % 10 = 0 then Dec.normAux fuel (m / 10) e' else ⟨m, e' + 1⟩

/-- Normalized decimal `m / 10^e`. -/
def Dec.norm (m : Int) (e : Nat) : Dec := Dec.normAux e m e

/-- A Python value as it can appear in the untrusted extraction payloads
(`profile_data` dicts): strings, numbers, booleans, or the Python `None`
object. -/
inductive PyVal where
  | vStr (s : String)
  | vNum (d : Dec)
  | vBool (b : Bool)
  | vNone
deriving DecidableEq, Repr

/-- Python truthiness (`bool(v)` / `if v:`): `None`, `False`, `0`, and the
empty string are falsy; everything else is truthy. -/
def PyVal.truthy : PyVal → Bool
  | .vStr s => !(s.isEmpty)
  | .vNum d => d.m != 0
  | .vBool b => b
  | .vNone => false

/-- `bool(v)` coincides with truthiness. -/
def PyVal.toBool (v : PyVal) : Bool := v.truthy

/-- Python `str.strip()`: drop leading and trailing whitespace. -/
def pyStrip (s : String) : String :=
  ⟨((s.toList.dropWhile Char.isWhitespace).reverse.dropWhile Char.isWhitespace).reverse⟩

/-- Python `str.lower()` (ASCII, which covers every string the code compares). -/
def pyLower (s : String) : String := ⟨s.toList.map Char.toLower⟩

/-- Python `str.upper()` (ASCII). -/
def pyUpper (s : String) : String := ⟨s.toList.map Char.toUpper⟩

/-- Python `str.replace(c, '')` for a one-character pattern: remove every
occurrence of the character. -/
def pyRemoveChar (s : String) (c : Char) : String := ⟨s.toList.filter (· ≠ c)⟩

/-- Python `len` on a string (number of characters). -/
def pyLen (s : String) : Nat := s.toList.length

/-- Value of a (possibly empty) list of decimal digit characters. -/
def digitsVal (cs : List Char) : Nat :=
  cs.foldl (fun a c => 10 * a + (c.toNat - 48)) 0

/-- Core of Python `float(s)` after sign removal: digits with at most one
decimal point, at least one digit overall.  (Exponents, `inf`/`nan` and
digit underscores are not modelled; no input in this code base uses them.) -/
def pyFloatCore (cs : List Char) : Option Dec :=
  let intPart := cs.takeWhile (· ≠ '.')
  match cs.dropWhile (· ≠ '.') with
  | [] =>
      if !intPart.isEmpty && intPart.all Char.isDigit then
        some (Dec.norm (digitsVal intPart) 0)
      else none
  | _ :: frac =>
      if frac.contains '.' then none
      else if !(intPart.isEmpty && frac.isEmpty) && intPart.all Char.isDigit
              && frac.all Char.isDigit then
        some (Dec.norm (digitsVal intPart * 10 ^ frac.length + digitsVal frac) frac.length)
      else none

/-- Python `float(s)`: strip whitespace, optional sign, then a decimal
literal; `none` models the raised `ValueError`. -/
def pyFloat? (s : String) : Option Dec :=
  match (pyStrip s).toList with
  | '-' :: rest => (pyFloatCore rest).map (fun d => ⟨-d.m, d.e⟩)
  | '+' :: rest => pyFloatCore rest
  | cs => pyFloatCore cs

/-- Decimal digits of a natural number (fuel-based so that it reduces in
the kernel). -/
def natDigitsAux : Nat → Nat → List Char
  | 0, _ => []
  | fuel + 1, n =>
      if n < 10 then [Char.ofNat (48 + n)]
      else natDigitsAux fuel (n / 10) ++ [Char.ofNat (48 + n % 10)]

/-- Decimal string of a natural number. -/
def natToStr (n : Nat) : String := ⟨natDigitsAux (n + 1) n⟩

/-- Models Python `str()` on a float value: sign, the digits of the
mantissa with a decimal point `e` places from the right (zero-padded so
the integer part is nonempty), and `".0"` for integral values — exactly
Python's output on values with an exact short decimal form, which covers
every number the code handles. -/
def pyFloatStr (d : Dec) : String :=
  let sign := if d.m < 0 then "-" else ""
  let digits := natDigitsAux (d.m.natAbs + 1) d.m.natAbs
  let digits := List.replicate (d.e + 1 - digits.length) '0' ++ digits
  if d.e = 0 then sign ++ ⟨digits⟩ ++ ".0"
  else sign ++ ⟨digits.take (digits.length - d.e)⟩ ++ "." ++ ⟨digits.drop (digits.length - d.e)⟩

/-- Python `str(v)` on the payload values the code converts. -/
def pyStr : PyVal → String
  | .vStr s => s
  | .vNum d => pyFloatStr d
  | .vBool b => if b then "True" else "False"
  | .vNone => "None"

/-- `VALID_ROLES` (database.py line 30). -/
def VALID_ROLES : List String := ["Developer", "Investor"]

/-- `VALID_CAP_GAIN_TIMES` (database.py line 31). -/
def VALID_CAP_GAIN_TIMES : List String :=
  ["Last 180 days", "More than 180 days AGO", "Upcoming"]

/-- `US_STATES` (database.py lines 34-40). -/
def US_STATES : List String :=
  ["AL", "AK", "AZ", "AR", "CA", "CO", "CT", "DE", "FL", "GA",
   "HI", "ID", "IL", "IN", "IA", "KS", "KY", "LA", "ME", "MD",
   "MA", "MI", "MN", "MS", "MO", "MT", "NE", "NV", "NH", "NJ",
   "NM", "NY", "NC", "ND", "OH", "OK", "OR", "PA", "RI", "SC",
   "SD", "TN", "TX", "UT", "VT", "VA", "WA", "WV", "WI", "WY", "DC"]

/-- The structured columns of `UserProfile` (database.py lines 42-65) for
one user.  `location_of_development` keeps the raw Python value written to
it (the code copies the payload value unvalidated); SQL `NULL` is `vNone`.
`need_team_contact` has column default `False`.  `id`/`user_id` and the
timestamp metadata are not modelled. -/
structure UserProfile where
  role : Option String := none
  cap_gain_or_not : Option Bool := none
  size_of_cap_gain : Option Dec := none
  time_of_cap_gain : Option String := none
  geographical_zone_of_investment : Option String := none
  location_of_development : PyVal := .vNone
  need_team_contact : Bool := false
deriving DecidableEq, Repr

/-- An incoming `profile_data` dict restricted to the keys the code reads.
`none` means the key is absent; `some v` means the key is present with
Python value `v` (which may itself be the Python `None`, i.e. `.vNone`). -/
structure ProfileData where
  role : Option PyVal := none
  cap_gain_or_not : Option PyVal := none
  size_of_cap_gain : Option PyVal := none
  time_of_cap_gain : Option PyVal := none
  geographical_zone_of_investment : Option PyVal := none
  location_of_development : Option PyVal := none
  need_team_contact : Option PyVal := none
deriving DecidableEq, Repr

/-- Python dict truthiness for a payload: `if profile_data:` is false iff
no key is present. -/
def ProfileData.isEmpty (pd : ProfileData) : Bool :=
  pd.role.isNone && pd.cap_gain_or_not.isNone && pd.size_of_cap_gain.isNone
    && pd.time_of_cap_gain.isNone && pd.geographical_zone_of_investment.isNone
    && pd.location_of_development.isNone && pd.need_team_contact.isNone

/-- The `cleaned_data` dict built inside `update_user_profile`
(database.py lines 174-253).  The outer `Option` is key presence; for the
columns that the constraint logic can explicitly null out, the inner
`Option` is the value (inner `none` = Python `None`).
`location_of_development` holds the raw Python value that would be
assigned. -/
structure CleanedData where
  role : Option String := none
  cap_gain_or_not : Option (Option Bool) := none
  size_of_cap_gain : Option (Option Dec) := none
  time_of_cap_gain : Option (Option String) := none
  geographical_zone_of_investment : Option (Option String) := none
  location_of_development : Option PyVal := none
  need_team_contact : Option Bool := none
deriving DecidableEq, Repr

/-- The role block of `update_user_profile` (database.py lines 176-189):
exact match against `VALID_ROLES`, then the first case-insensitive match,
else the field is dropped. -/
def cleanRole (pd : ProfileData) : Option String :=
  match pd.role with
  | some v =>
      if v.truthy then
        let role_input := pyStrip (pyStr v)
        if role_input ∈ VALID_ROLES then some role_input
        else VALID_ROLES.find? (fun valid_role => pyLower role_input == pyLower valid_role)
      else none
  | none => none

/-- The validation half of `update_user_profile` (database.py lines
174-226): build `cleaned_data` from `profile_data`, dropping every field
that fails its check.  No clause can raise. -/
def cleanProfileData (pd : ProfileData) : CleanedData :=
  { role := cleanRole pd
    time_of_cap_gain :=
      match pd.time_of_cap_gain with
      | some v =>
          if v.truthy then
            let time_input := pyStrip (pyStr v)
            if time_input ∈ VALID_CAP_GAIN_TIMES then some (some time_input) else none
          else none
      | none => none
    geographical_zone_of_investment :=
      match pd.geographical_zone_of_investment with
      | some v =>
          if v.truthy then
            let state := pyUpper (pyStrip (pyStr v))
            if pyLen state = 2 ∧ state ∈ US_STATES then some (some state) else none
          else none
      | none => none
    size_of_cap_gain :=
      match pd.size_of_cap_gain with
      | some v =>
          if v ≠ .vNone then
            match pyFloat? (pyStrip (pyRemoveChar (pyRemoveChar (pyStr v) ',') '$')) with
            | some size_numeric => some (some size_numeric)
            | none => none
          else none
      | none => none
    cap_gain_or_not :=
      match pd.cap_gain_or_not with
      | some v => some (some v.toBool)
      | none => none
    need_team_contact :=
      match pd.need_team_contact with
      | some v => some v.toBool
      | none => none
    location_of_development :=
      match pd.location_of_development with
      | some v => some v
      | none => none }

/-- `cleaned_data.get('role', current_role)` (database.py line 230). -/
def newRole (cd : CleanedData) (current_role : Option String) : Option String :=
  match cd.role with
  | some r => some r
  | none => current_role

/-- The database-constraint half of `update_user_profile` (database.py
lines 228-253), keyed on `new_role = cleaned_data.get('role', current_role)`. -/
def applyConstraints (cd : CleanedData) (current_role : Option String) : CleanedData :=
  let new_role := newRole cd current_role
  if new_role = some "Investor" then
    { cd with
      location_of_development := some .vNone
      cap_gain_or_not :=
        match cd.cap_gain_or_not with
        | some b => some b
        | none => some (some false) }
  else if new_role = some "Developer" then
    { cd with
      cap_gain_or_not := some none
      size_of_cap_gain := some none
      time_of_cap_gain := some none
      geographical_zone_of_investment := some none
      location_of_development :=
        match cd.location_of_development with
        | some v => if v.truthy then some v else some (.vStr "Location to be determined")
        | none => some (.vStr "Location to be determined") }
  else if new_role = none then
    { cd with location_of_development := some .vNone }
  else cd

/-- The persistence tail of `update_user_profile` (database.py lines
255-265): for an existing row, `setattr` each key present in
`cleaned_data`; for a fresh row, `UserProfile(**cleaned_data)` with column
defaults — which is the same assignment applied to the default record. -/
def applyCleaned (p : UserProfile) (cd : CleanedData) : UserProfile :=
  { role := match cd.role with | some r => some r | none => p.role
    cap_gain_or_not := match cd.cap_gain_or_not with | some b => b | none => p.cap_gain_or_not
    size_of_cap_gain := match cd.size_of_cap_gain with | some s => s | none => p.size_of_cap_gain
    time_of_cap_gain := match cd.time_of_cap_gain with | some t => t | none => p.time_of_cap_gain
    geographical_zone_of_investment :=
      match cd.geographical_zone_of_investment with
      | some g => g
      | none => p.geographical_zone_of_investment
    location_of_development :=
      match cd.location_of_development with
      | some l => l
      | none => p.location_of_development
    need_team_contact :=
      match cd.need_team_contact with
      | some b => b
      | none => p.need_team_contact }

/-- `profile.role if profile else None` (database.py line 229); also
`current_profile.get('role')` on the dict fetched by `get_user_profile`
(`None` when the user has no row). -/
def profileRole (store : Option UserProfile) : Option String :=
  match store with
  | some p => p.role
  | none => none

/-- The row the write applies to: the existing row, or a fresh record with
the column defaults. -/
def baseProfile (store : Option UserProfile) : UserProfile :=
  match store with
  | some p => p
  | none => {}

/-- `update_user_profile(user_id, profile_data)` (database.py lines
165-274) as a function of the user's current row (`none` = no row yet):
validate, apply the role-constraint forcing, then write.  Returns the
persisted row. -/
def update_user_profile (store : Option UserProfile) (pd : ProfileData) : UserProfile :=
  let cd := applyConstraints (cleanProfileData pd) (profileRole store)
  applyCleaned (baseProfile store) cd

/-- `get_user_profile(user_id)` (database.py lines 118-142) as a function of
the outcome of the database query: `.ok r` is a completed query returning
the user's row (or no row), `.error` is a raised database exception.  The
`except` clause logs and returns `None` — the same result as a missing
row. -/
def get_user_profile (query : Except Unit (Option UserProfile)) : Option UserProfile :=
  match query with
  | .ok r => r
  | .error _ => none

/-- The write path of `update_user_profile` with the commit outcome made
explicit (database.py lines 267-274): on a raised database error the
session is rolled back (the store keeps its old row) and the function
returns normally — no error is propagated to the caller. -/
def update_user_profile_commit (store : Option UserProfile) (pd : ProfileData)
    (commit_ok : Bool) : Option UserProfile :=
  if commit_ok then some (update_user_profile store pd) else store

/-- `increment_message_count(user_id)` (database.py lines 144-163): if the
user has a row, refresh `updated_at` (not modelled) and set
`need_team_contact = True`, returning `True`; otherwise return `False`.
No counter field exists or is touched. -/
def increment_message_count (store : Option UserProfile) : Option UserProfile × Bool :=
  match store with
  | some p => (some { p with need_team_contact := true }, true)
  | none => (none, false)

/-- One token of an injection regex: a literal run, `\s*`, or `\s+`.
Every literal in the patterns is whitespace-free, so greedy whitespace
consumption is equivalent to the regex semantics. -/
inductive PatTok where
  | lit (s : String)
  | wsStar
  | wsPlus
deriving DecidableEq, Repr

/-- Match a token list at the start of a character list. -/
def matchToksAt : List PatTok → List Char → Bool
  | [], _ => true
  | .lit s :: ps, cs =>
      decide (s.toList <+: cs) && matchToksAt ps (cs.drop s.toList.length)
  | .wsStar :: ps, cs => matchToksAt ps (cs.dropWhile Char.isWhitespace)
  | .wsPlus :: ps, cs =>
      match cs with
      | [] => false
      | c :: rest => c.isWhitespace && matchToksAt ps (rest.dropWhile Char.isWhitespace)

/-- `re.search`: the pattern matches at some position of the string. -/
def searchToks (p : List PatTok) : List Char → Bool
  | [] => matchToksAt p []
  | c :: rest => matchToksAt p (c :: rest) || searchToks p rest

/-- `injection_patterns` (profiling.py lines 199-208). -/
def injection_patterns : List (List PatTok) :=
  [[.lit "system", .wsStar, .lit ":"],
   [.lit "admin"],
   [.lit "ignore", .wsPlus, .lit "previous"],
   [.lit "disregard", .wsPlus, .lit "instructions"],
   [.lit "show", .wsPlus, .lit "me", .wsPlus, .lit "the", .wsPlus, .lit "prompt"],
   [.lit "reveal", .wsPlus, .lit "system"],
   [.lit "execute", .wsPlus, .lit "code"],
   [.lit "run", .wsPlus, .lit "sql"]]

/-- The security check of `extract_profile_updates` (profiling.py lines
210-214): some injection pattern matches the lowercased message. -/
def containsInjection (message : String) : Bool :=
  injection_patterns.any (fun p => searchToks p (pyLower message).toList)

/-- A `trigger_action` function call's arguments (profiling.py lines 61-84). -/
structure TriggerAction where
  action : String
  reason : String
  confidence_level : Option String := none
deriving DecidableEq, Repr

/-- The action appended by the auto-trigger branch (profiling.py lines
249-253). -/
def autoShareAction : TriggerAction :=
  { action := "share_calendar_link"
    reason := "You have been actively engaged in our conversation and may benefit from speaking with our team"
    confidence_level := some "medium" }

/-- Truthiness of `current_profile.get('need_team_contact')`: falsy when
the user has no row. -/
def profileNeedContact (store : Option UserProfile) : Bool :=
  match store with
  | some p => p.need_team_contact
  | none => false

/-- `_clean_profile_updates(updates, current_profile)` (profiling.py lines
265-299).  The result `none` models the `TypeError` raised by
`len(state)` when a truthy non-string reaches the Investor geographic-zone
check (the only clause that can raise); that exception is caught by the
caller's `try`.  Otherwise the cleaned updates are returned as a payload
dict, to be handed to `update_user_profile`. -/
def clean_profile_updates (updates : ProfileData) (current_profile_role : Option String) :
    Option ProfileData :=
  let roleValid := updates.role = some (.vStr "Developer") ∨ updates.role = some (.vStr "Investor")
  let cleanedRole : Option PyVal := if roleValid then updates.role else none
  let current_role : Option String :=
    if roleValid then
      match updates.role with
      | some (.vStr r) => some r
      | _ => none
    else current_profile_role
  if current_role = some "Investor" then
    let geoResult : Option (Option PyVal) :=
      match updates.geographical_zone_of_investment with
      | some v =>
          if v.truthy then
            match v with
            | .vStr s =>
                if pyLen s = 2 ∧ pyUpper s ∈ US_STATES then some (some (.vStr (pyUpper s)))
                else some none
            | _ => none
          else some none
      | none => some none
    match geoResult with
    | none => none
    | some geo =>
        some
          { role := cleanedRole
            cap_gain_or_not :=
              match updates.cap_gain_or_not with
              | some v => some (.vBool v.toBool)
              | none => none
            size_of_cap_gain :=
              match updates.size_of_cap_gain with
              | some v => if v.truthy then some v else none
              | none => none
            time_of_cap_gain :=
              match updates.time_of_cap_gain with
              | some v =>
                  if VALID_CAP_GAIN_TIMES.any (fun t => v = .vStr t) then some v else none
              | none => none
            geographical_zone_of_investment := geo }
  else if current_role = some "Developer" then
    some
      { role := cleanedRole
        location_of_development :=
          match updates.location_of_development with
          | some v => if v.truthy then some v else none
          | none => none }
  else
    some { role := cleanedRole }

/-- The result dict of `extract_profile_updates` (profiling.py lines
193-263): the security path, the normal path (whose `message_count` entry
is the boolean returned by `increment_message_count`), or the `except`
path returning `{}`. -/
inductive ExtractResult where
  | securityFlag
  | ok (updates : ProfileData) (actions : List TriggerAction) (message_count : Bool)
  | err
deriving DecidableEq, Repr

/-- Python `int` coercion of a boolean, as used by `message_count >= 4`. -/
def pyBoolInt (b : Bool) : Nat := if b then 1 else 0

/-- The auto-trigger tail of `extract_profile_updates` (profiling.py lines
246-259): `if message_count >= 4 and not current_profile.get('need_team_contact')`
— where `message_count` is the boolean from `increment_message_count` and
`current_profile` is the pre-increment snapshot. -/
def autoTrigger (snapshot store2 : Option UserProfile) (updates : ProfileData)
    (actions : List TriggerAction) (message_count : Bool) :
    Option UserProfile × ExtractResult :=
  if 4 ≤ pyBoolInt message_count ∧ ¬ profileNeedContact snapshot then
    (some (update_user_profile store2 { need_team_contact := some (.vBool true) }),
     .ok updates (actions ++ [autoShareAction]) message_count)
  else
    (store2, .ok updates actions message_count)

/-- One inbound message together with the (stubbed, external) LLM response
to it: the `update_user_profile` function-call args (`{}` when the model
made no such call) and the `trigger_action` calls. -/
structure MsgInput where
  message : String
  llmUpdates : ProfileData := {}
  llmActions : List TriggerAction := []
deriving DecidableEq, Repr

/-- `extract_profile_updates(message, user_id)` (profiling.py lines
193-263) over the user's store slice: fetch the profile snapshot, run
`increment_message_count`, apply the security check, clean and persist the
LLM's updates, then the auto-trigger.  Returns the store after the call
and the result dict. -/
def extract_profile_updates (store : Option UserProfile) (m : MsgInput) :
    Option UserProfile × ExtractResult :=
  let snapshot := store
  let incr := increment_message_count store
  let store1 := incr.1
  let message_count := incr.2
  if containsInjection m.message then
    (store1, .securityFlag)
  else if m.llmUpdates.isEmpty then
    autoTrigger snapshot store1 m.llmUpdates m.llmActions message_count
  else
    match clean_profile_updates m.llmUpdates (profileRole snapshot) with
    | none => (store1, .err)
    | some cleaned_updates =>
        let store2 :=
          if cleaned_updates.isEmpty then store1
          else some (update_user_profile store1 cleaned_updates)
        autoTrigger snapshot store2 m.llmUpdates m.llmActions message_count

/-- The status field of `update_profile`'s response (profiling.py lines
304-320). -/
inductive ProfileStatus where
  | security_warning
  | success
deriving DecidableEq, Repr

/-- `update_profile(user_id, message)` (profiling.py lines 304-320): wrap
`extract_profile_updates`, mapping a security flag to the
`security_warning` status and everything else to `success`. -/
def update_profile (store : Option UserProfile) (m : MsgInput) :
    Option UserProfile × ProfileStatus :=
  let r := extract_profile_updates store m
  match r.2 with
  | .securityFlag => (r.1, .security_warning)
  | _ => (r.1, .success)

/-- Process a sequence of messages, threading the store; returns the store
and result after each message. -/
def runMessages (store : Option UserProfile) :
    List MsgInput → List (Option UserProfile × ExtractResult)
  | [] => []
  | m :: rest =>
      let r := extract_profile_updates store m
      r :: runMessages r.1 rest

/-- Number of `share_calendar_link` actions in one message's result. -/
def shareLinkCount (r : ExtractResult) : Nat :=
  match r with
  | .ok _ actions _ => (actions.filter (fun a => a.action = "share_calendar_link")).length
  | _ => 0

/-- Some Investor-group column is non-null. -/
def investorFieldsSet (p : UserProfile) : Bool :=
  p.cap_gain_or_not.isSome || p.size_of_cap_gain.isSome || p.time_of_cap_gain.isSome
    || p.geographical_zone_of_investment.isSome

/-- The Developer column is non-null. -/
def developerFieldSet (p : UserProfile) : Bool :=
  p.location_of_development != .vNone

/-- The role-group mutual-exclusion invariant: never both an Investor-group
column and `location_of_development` simultaneously non-null. -/
def groupsExclusive (p : UserProfile) : Bool :=
  !(investorFieldsSet p && developerFieldSet p)

/-- The stored role is null or one of the two valid roles. -/
def roleOk (r : Option String) : Prop :=
  r = none ∨ r = some "Developer" ∨ r = some "Investor"

/-- The persisted rows after each merge of a sequence of payloads, starting
from the given store slice. -/
def mergeStates : Option UserProfile → List ProfileData → List UserProfile
  | _, [] => []
  | store, pd :: rest =>
      let p := update_user_profile store pd
      p :: mergeStates (some p) rest

/-- Five plain inbound messages carrying no explicit scheduling request, no
injection pattern, and no LLM function call. -/
def fivePlainMessages : List MsgInput :=
  List.replicate 5 { message := "hello" }

/-- A stored Investor row with populated Investor-group fields (fixture). -/
def investorFixture : UserProfile :=
  { role := some "Investor", cap_gain_or_not := some true, size_of_cap_gain := some ⟨100, 0⟩ }

/-- A payload carrying only a capital-gain timing (fixture). -/
def timingOnlyPayload : ProfileData :=
  { time_of_cap_gain := some (.vStr "Upcoming") }

/-- The role-transition payload of the C4 scenario (fixture). -/
def devTransitionPayload : ProfileData :=
  { role := some (.vStr "Developer"), location_of_development := some (.vStr "Austin, TX") }

/-- A payload carrying a valid (lowercase) role alongside an invalid
10-character state name (fixture). -/
def californiaPayload : ProfileData :=
  { role := some (.vStr "investor"),
    geographical_zone_of_investment := some (.vStr "California") }

/-! ## Helper lemmas -/

/-- The cleaned role is null or one of the two valid roles. -/
theorem cleanRole_ok (pd : ProfileData) : roleOk (cleanRole pd) := by
  unfold cleanRole roleOk
  cases pd.role with
  | none => exact Or.inl rfl
  | some v =>
    by_cases hv : v.truthy
    · simp only [hv, if_true]
      by_cases hm : pyStrip (pyStr v) ∈ VALID_ROLES
      · simp only [hm, if_pos]
        simp [VALID_ROLES] at hm
        rcases hm with hm | hm <;> simp [hm]
      · simp only [if_neg hm]
        cases hf : VALID_ROLES.find?
            (fun valid_role => pyLower (pyStrip (pyStr v)) == pyLower valid_role) with
        | none => exact Or.inl rfl
        | some r =>
          have hr := List.mem_of_find?_eq_some hf
          simp [VALID_ROLES] at hr
          rcases hr with hr | hr <;> simp [hr]
    · simp [hv]

/-- The effective role of a merge is null or one of the two valid roles,
provided the stored role is. -/
theorem newRole_ok (store : Option UserProfile) (pd : ProfileData)
    (h : roleOk (profileRole store)) :
    roleOk (newRole (cleanProfileData pd) (profileRole store)) := by
  have hc := cleanRole_ok pd
  have hrw : (cleanProfileData pd).role = cleanRole pd := rfl
  unfold newRole
  rw [hrw]
  rcases hc with hc | hc | hc
  · rw [hc]; exact h
  · rw [hc]; exact Or.inr (Or.inl rfl)
  · rw [hc]; exact Or.inr (Or.inr rfl)

/-- The constraint pass never changes the cleaned role key. -/
theorem applyConstraints_role (cd : CleanedData) (r : Option String) :
    (applyConstraints cd r).role = cd.role := by
  simp only [applyConstraints]
  repeat' split <;> try rfl

/-- One merge always produces a row satisfying the role-group exclusion,
provided the stored role is valid. -/
theorem update_groups_exclusive (store : Option UserProfile) (pd : ProfileData)
    (h : roleOk (profileRole store)) :
    groupsExclusive (update_user_profile store pd) = true := by
  rcases newRole_ok store pd h with hnr | hnr | hnr <;>
    simp only [update_user_profile, applyConstraints, applyCleaned, hnr,
      groupsExclusive, investorFieldsSet, developerFieldSet] <;>
    simp

/-- One merge keeps the stored role valid. -/
theorem update_role_ok (store : Option UserProfile) (pd : ProfileData)
    (h : roleOk (profileRole store)) :
    roleOk (update_user_profile store pd).role := by
  have hb : roleOk (baseProfile store).role := by
    cases store with
    | none => exact Or.inl rfl
    | some p => exact h
  have hrw : (cleanProfileData pd).role = cleanRole pd := rfl
  cases hcr : (cleanProfileData pd).role with
  | none =>
    rcases newRole_ok store pd h with hnr | hnr | hnr <;>
      simp only [update_user_profile, applyConstraints, applyCleaned, hnr, hcr] <;>
      simpa using hb
  | some r =>
    have hr : roleOk (some r) := by
      rw [hrw] at hcr
      rcases cleanRole_ok pd with hc | hc | hc <;> rw [hc] at hcr
      · exact absurd hcr (by simp)
      · exact hcr ▸ Or.inr (Or.inl rfl)
      · exact hcr ▸ Or.inr (Or.inr rfl)
    rcases newRole_ok store pd h with hnr | hnr | hnr <;>
      simp only [update_user_profile, applyConstraints, applyCleaned, hnr, hcr] <;>
      simpa using hr

/-- Every row produced along a merge sequence satisfies the role-group
exclusion, provided the starting role is valid. -/
theorem mergeStates_all_exclusive (pds : List ProfileData) :
    ∀ store : Option UserProfile, roleOk (profileRole store) →
      (mergeStates store pds).all groupsExclusive = true := by
  induction pds with
  | nil => intro store _; rfl
  | cons pd rest ih =>
    intro store h
    simp only [mergeStates, List.all_cons, Bool.and_eq_true]
    refine ⟨update_groups_exclusive store pd h, ?_⟩
    exact ih (some (update_user_profile store pd)) (update_role_ok store pd h)

/-- Two cleaned-data records with equal fields are equal. -/
theorem CleanedData.eqOfFields (a b : CleanedData) (h1 : a.role = b.role)
    (h2 : a.cap_gain_or_not = b.cap_gain_or_not)
    (h3 : a.size_of_cap_gain = b.size_of_cap_gain)
    (h4 : a.time_of_cap_gain = b.time_of_cap_gain)
    (h5 : a.geographical_zone_of_investment = b.geographical_zone_of_investment)
    (h6 : a.location_of_development = b.location_of_development)
    (h7 : a.need_team_contact = b.need_team_contact) : a = b := by
  cases a; cases b; simp_all

/-! ## Claim theorems -/

/-- C1: the spec says `needs_team_contact` becomes true exactly at the 4th
message and `share_calendar_link` is emitted exactly once, on message 4.
The code disagrees: `increment_message_count` returns a boolean, so the
threshold test `message_count >= 4` compares `True >= 4` and never fires —
over five plain messages the auto action is emitted zero times, while
`need_team_contact` is already true after message 1 (set unconditionally by
`increment_message_count` on an existing row). -/
theorem share_link_never_auto_emitted :
    ((runMessages (some {}) fivePlainMessages).map (fun r => shareLinkCount r.2) =
      [0, 0, 0, 0, 0]) ∧
    ((runMessages (some {}) fivePlainMessages).map (fun r => profileNeedContact r.1) =
      [true, true, true, true, true]) := by decide

/-- C2: the spec says every processed message increments the stored
`message_count` by exactly 1 with `last_session_at` in lockstep.  The code
has no such column: `increment_message_count` only sets
`need_team_contact = True` (plus a timestamp refresh) and returns the
boolean `True`, so every one of five messages reports the same
`message_count` value `True` and the store is unchanged after message 1. -/
theorem message_count_never_incremented :
    increment_message_count (some {}) = (some { need_team_contact := true }, true) ∧
    (runMessages (some {}) fivePlainMessages).map (fun r => r.2) =
      List.replicate 5 (.ok {} [] true) := by decide

/-- C3: along every sequence of merges starting from the empty store, every
persisted row keeps the Investor-group columns and the Developer column
`location_of_development` mutually exclusive — never both populated. -/
theorem merge_sequences_groups_exclusive (pds : List ProfileData) :
    (mergeStates none pds).all groupsExclusive = true :=
  mergeStates_all_exclusive pds none (Or.inl rfl)

/-- C4: merging `{role: "Developer", location_of_development: "Austin, TX"}`
into any stored Investor profile (however its capital-gain fields are
populated) yields `role=Developer`, the location set, and every
Investor-group field nulled — the transition truly erases the prior
Investor-group values. -/
theorem investor_to_developer_erases (p : UserProfile) (_hp : p.role = some "Investor") :
    update_user_profile (some p) devTransitionPayload =
    { role := some "Developer", location_of_development := .vStr "Austin, TX",
      need_team_contact := p.need_team_contact } := by
  have h1 : (cleanProfileData devTransitionPayload).role = some "Developer" := by decide
  have h2 : (cleanProfileData devTransitionPayload).location_of_development =
      some (.vStr "Austin, TX") := by decide
  have h3 : (cleanProfileData devTransitionPayload).need_team_contact = none := by decide
  have h4 : (PyVal.vStr "Austin, TX").truthy = true := by decide
  have hnr : newRole (cleanProfileData devTransitionPayload) (profileRole (some p)) =
      some "Developer" := by
    unfold newRole
    rw [h1]
  simp only [update_user_profile, applyConstraints, applyCleaned, hnr, baseProfile]
  simp [h1, h2, h3, h4]

/-- C4 witness: the erasure theorem at the concrete stored profile
`role=Investor, cap_gain_or_not=true, size_of_cap_gain=500000`. -/
theorem investor_to_developer_erases_witness :
    update_user_profile
      (some { role := some "Investor", cap_gain_or_not := some true,
              size_of_cap_gain := some ⟨500000, 0⟩ })
      devTransitionPayload =
    { role := some "Developer", location_of_development := .vStr "Austin, TX" } :=
  investor_to_developer_erases
    { role := some "Investor", cap_gain_or_not := some true,
      size_of_cap_gain := some ⟨500000, 0⟩ } rfl

/-- C5 counterexample: with a stored Investor profile holding
`cap_gain_or_not = true`, a merge whose payload omits `cap_gain_or_not`
(it carries only a timing) resets the stored value to `false` — omission
does not preserve the prior value, falsifying the claim. -/
theorem omission_overwrites_cex :
    (cleanProfileData { time_of_cap_gain := some (.vStr "Upcoming") }).cap_gain_or_not = none ∧
    ({ role := some "Investor", cap_gain_or_not := some true } : UserProfile).cap_gain_or_not =
      some true ∧
    (update_user_profile (some { role := some "Investor", cap_gain_or_not := some true })
      { time_of_cap_gain := some (.vStr "Upcoming") }).cap_gain_or_not = some false := by decide

/-- C5 amended: when the effective role is unchanged, fields absent from
the cleaned incoming mapping retain their stored values — except that with
role Investor `cap_gain_or_not` is reset to `false` whenever absent
(regardless of the stored value) and with role Developer
`location_of_development` is reset to the placeholder whenever absent
(regardless of the stored value); the role-contradicting group is forced
null as in C3. -/
theorem merge_frame_amended (p : UserProfile) (pd : ProfileData)
    (hrole : cleanRole pd = none ∨ cleanRole pd = p.role) :
    (update_user_profile (some p) pd).role = p.role ∧
    ((cleanProfileData pd).need_team_contact = none →
      (update_user_profile (some p) pd).need_team_contact = p.need_team_contact) ∧
    (p.role ≠ some "Developer" → (cleanProfileData pd).size_of_cap_gain = none →
      (update_user_profile (some p) pd).size_of_cap_gain = p.size_of_cap_gain) ∧
    (p.role ≠ some "Developer" → (cleanProfileData pd).time_of_cap_gain = none →
      (update_user_profile (some p) pd).time_of_cap_gain = p.time_of_cap_gain) ∧
    (p.role ≠ some "Developer" → (cleanProfileData pd).geographical_zone_of_investment = none →
      (update_user_profile (some p) pd).geographical_zone_of_investment =
        p.geographical_zone_of_investment) ∧
    (p.role ≠ some "Developer" → p.role ≠ some "Investor" →
      (cleanProfileData pd).cap_gain_or_not = none →
      (update_user_profile (some p) pd).cap_gain_or_not = p.cap_gain_or_not) ∧
    (p.role = some "Investor" → (cleanProfileData pd).cap_gain_or_not = none →
      (update_user_profile (some p) pd).cap_gain_or_not = some false) ∧
    (p.role = some "Developer" → (cleanProfileData pd).location_of_development = none →
      (update_user_profile (some p) pd).location_of_development =
        .vStr "Location to be determined") := by
  have hcd : (cleanProfileData pd).role = cleanRole pd := rfl
  have hnr : newRole (cleanProfileData pd) (profileRole (some p)) = p.role := by
    unfold newRole
    rw [hcd]
    rcases hrole with h | h
    · rw [h]; rfl
    · rw [h]; cases hq : p.role <;> simp [profileRole, hq]
  have hroleq : (update_user_profile (some p) pd).role = p.role := by
    have h1 : (update_user_profile (some p) pd).role =
        match (applyConstraints (cleanProfileData pd) (profileRole (some p))).role with
        | some r => some r
        | none => p.role := rfl
    rw [h1, applyConstraints_role, hcd]
    rcases hrole with h | h
    · rw [h]
    · rw [h]; cases hq : p.role <;> simp [hq]
  rcases hp : p.role with _ | r
  · rw [hp] at hnr hroleq
    refine ⟨hroleq, ?_, ?_, ?_, ?_, ?_, ?_, ?_⟩ <;>
      intros <;>
      simp only [update_user_profile, applyConstraints, applyCleaned, hnr, baseProfile] <;>
      simp_all
  · by_cases hi : r = "Investor"
    · subst hi
      rw [hp] at hnr hroleq
      refine ⟨hroleq, ?_, ?_, ?_, ?_, ?_, ?_, ?_⟩ <;>
        intros <;>
        simp only [update_user_profile, applyConstraints, applyCleaned, hnr, baseProfile] <;>
        simp_all
    · by_cases hd : r = "Developer"
      · subst hd
        rw [hp] at hnr hroleq
        refine ⟨hroleq, ?_, ?_, ?_, ?_, ?_, ?_, ?_⟩ <;>
          intros <;>
          simp only [update_user_profile, applyConstraints, applyCleaned, hnr, baseProfile] <;>
          simp_all
      · rw [hp] at hnr hroleq
        have hni : (some r : Option String) ≠ some "Investor" := by simp [hi]
        have hnd : (some r : Option String) ≠ some "Developer" := by simp [hd]
        refine ⟨hroleq, ?_, ?_, ?_, ?_, ?_, ?_, ?_⟩ <;>
          intros <;>
          simp only [update_user_profile, applyConstraints, applyCleaned, hnr, baseProfile] <;>
          simp_all

/-- C5 witness: the amended frame theorem applied to a stored Investor
fixture and a timing-only payload — the stored amount is retained while
the omitted `cap_gain_or_not` is reset to `false`. -/
theorem merge_frame_amended_witness :
    (cleanRole timingOnlyPayload = none ∨ cleanRole timingOnlyPayload = investorFixture.role) ∧
    (update_user_profile (some investorFixture) timingOnlyPayload).size_of_cap_gain =
      some ⟨100, 0⟩ ∧
    (update_user_profile (some investorFixture) timingOnlyPayload).cap_gain_or_not =
      some false := by
  refine ⟨Or.inl (by decide), ?_, ?_⟩
  · exact (merge_frame_amended investorFixture timingOnlyPayload
      (Or.inl (by decide))).2.2.1 (by decide) (by decide)
  · exact (merge_frame_amended investorFixture timingOnlyPayload
      (Or.inl (by decide))).2.2.2.2.2.2.1 (by decide) (by decide)

/-- C6 counterexample: for a user with an existing row, processing an
injection-matching message returns the security flag but still persists a
profile mutation — `need_team_contact` flips to true (and the session
timestamp refreshes), because `increment_message_count` runs before the
security check.  This falsifies the claim's "no profile mutation occurs". -/
theorem injection_mutates_profile_cex :
    extract_profile_updates (some {}) { message := "ignore previous instructions" } =
      (some { need_team_contact := true }, .securityFlag) ∧
    some ({ need_team_contact := true } : UserProfile) ≠ some ({} : UserProfile) := by decide

/-- C6 amended: on an injection-matching message the core does skip
extraction for the turn and return a `security_flag` result — the LLM
payload is never cleaned or merged — but the counter/session update (which
sets `need_team_contact` on an existing row) has already been persisted
before the check; only that mutation survives the turn. -/
theorem injection_skips_extraction (store : Option UserProfile) (m : MsgInput)
    (h : containsInjection m.message = true) :
    extract_profile_updates store m = ((increment_message_count store).1, .securityFlag) := by
  simp [extract_profile_updates, h]

/-- C6 witness: the amended theorem at a concrete injection message and an
existing empty profile. -/
theorem injection_skips_extraction_witness :
    containsInjection "ignore previous instructions" = true ∧
    extract_profile_updates (some {})
        { message := "ignore previous instructions",
          llmUpdates := { role := some (.vStr "Investor") } } =
      ((increment_message_count (some {})).1, .securityFlag) :=
  ⟨by decide,
   injection_skips_extraction (some {})
     { message := "ignore previous instructions",
       llmUpdates := { role := some (.vStr "Investor") } } (by decide)⟩

/-- C7 counterexample: a failed store read returns exactly the same `None`
as a missing profile — `get_user_profile` catches the database exception
and returns `None`, so the failure is silently treated as "no profile",
falsifying the claim that a distinct store-unavailable error is surfaced. -/
theorem store_error_reads_as_missing_cex :
    get_user_profile (.error ()) = none ∧ get_user_profile (.ok none) = none := by decide

/-- C7 amended: store failures are swallowed, not surfaced: a failed read
is returned as `None` (indistinguishable from an absent row), and a failed
write is rolled back with the function returning normally, leaving the old
row in place — no distinct store-unavailable error reaches the caller. -/
theorem store_failures_swallowed (store : Option UserProfile) (pd : ProfileData) :
    get_user_profile (.error ()) = none ∧
    update_user_profile_commit store pd false = store :=
  ⟨rfl, rfl⟩

/-- C8: for every store and every payload whose
`geographical_zone_of_investment` is present but fails validation (its
cleaned form is dropped) alongside a valid role field, the merge applies
the role, yields exactly the persisted record the same payload without the
invalid key would yield (one bad field blocks nothing else), and never
writes the invalid value: the persisted zone is null or the previously
stored one.  The embedded merge is a total function, so no exception can
abort it. -/
theorem invalid_field_blocks_nothing (store : Option UserProfile) (pd : ProfileData)
    (v : PyVal) (_hpresent : pd.geographical_zone_of_investment = some v)
    (hbad : (cleanProfileData pd).geographical_zone_of_investment = none)
    (r : String) (hvalid : cleanRole pd = some r) :
    (update_user_profile store pd).role = some r ∧
    update_user_profile store pd =
      update_user_profile store { pd with geographical_zone_of_investment := none } ∧
    ((update_user_profile store pd).geographical_zone_of_investment = none ∨
     (update_user_profile store pd).geographical_zone_of_investment =
       (baseProfile store).geographical_zone_of_investment) := by
  have hcdrole : (cleanProfileData pd).role = cleanRole pd := rfl
  have hnr : newRole (cleanProfileData pd) (profileRole store) = some r := by
    unfold newRole
    rw [hcdrole, hvalid]
  have hcd : cleanProfileData { pd with geographical_zone_of_investment := none } =
      cleanProfileData pd :=
    CleanedData.eqOfFields _ _ rfl rfl rfl rfl hbad.symm rfl rfl
  refine ⟨?_, ?_, ?_⟩
  · have h1 : (update_user_profile store pd).role =
        match (applyConstraints (cleanProfileData pd) (profileRole store)).role with
        | some x => some x
        | none => (baseProfile store).role := rfl
    rw [h1, applyConstraints_role, hcdrole, hvalid]
  · unfold update_user_profile
    rw [hcd]
  · rcases cleanRole_ok pd with hc | hc | hc
    · rw [hvalid] at hc; exact absurd hc (by simp)
    · rw [hvalid] at hc
      have hr : r = "Developer" := by injection hc
      subst hr
      simp only [update_user_profile, applyConstraints, applyCleaned, hnr]
      simp
    · rw [hvalid] at hc
      have hr : r = "Investor" := by injection hc
      subst hr
      simp only [update_user_profile, applyConstraints, applyCleaned, hnr]
      simp [hbad]

/-- C8 witness: the theorem at the spec's fixture — role `"investor"`
(case-normalized to `"Investor"`) alongside the 10-character
`"California"` against a fresh store: the role is applied, the result
equals the merge without the invalid key, and the persisted record
(computed in full) carries no zone. -/
theorem invalid_field_blocks_nothing_witness :
    cleanRole californiaPayload = some "Investor" ∧
    (cleanProfileData californiaPayload).geographical_zone_of_investment = none ∧
    (update_user_profile none californiaPayload).role = some "Investor" ∧
    update_user_profile none californiaPayload =
      update_user_profile none { role := some (.vStr "investor") } ∧
    update_user_profile none californiaPayload =
      { role := some "Investor", cap_gain_or_not := some false } := by
  refine ⟨by decide, by decide, ?_, ?_, by decide⟩
  · exact (invalid_field_blocks_nothing none californiaPayload (.vStr "California") rfl
      (by decide) "Investor" (by decide)).1
  · exact (invalid_field_blocks_nothing none californiaPayload (.vStr "California") rfl
      (by decide) "Investor" (by decide)).2.1

/-- C9 counterexample: the amount input `"-500000"` parses and is persisted
as the negative value `-500000` — the code performs no sign check, so
negative amounts are stored rather than rejected, falsifying the claim's
non-negativity half. -/
theorem negative_amount_stored_cex :
    (update_user_profile none
      { role := some (.vStr "Investor"), size_of_cap_gain := some (.vStr "-500000")
      }).size_of_cap_gain = some ⟨-500000, 0⟩ ∧
    (⟨-500000, 0⟩ : Dec).m < 0 := by decide

/-- C9 amended: the inputs `"1,300,000"`, `"$1300000"`, and the float
`1300000.0` all normalize to the stored numeric value `1300000`; however
no non-negativity check exists — an input parsing to a negative number is
stored as that negative value (not rejected, not zeroed). -/
theorem amount_normalization_amended :
    (update_user_profile none
      { role := some (.vStr "Investor"), size_of_cap_gain := some (.vStr "1,300,000")
      }).size_of_cap_gain = some ⟨1300000, 0⟩ ∧
    (update_user_profile none
      { role := some (.vStr "Investor"), size_of_cap_gain := some (.vStr "$1300000")
      }).size_of_cap_gain = some ⟨1300000, 0⟩ ∧
    (update_user_profile none
      { role := some (.vStr "Investor"), size_of_cap_gain := some (.vNum ⟨1300000, 0⟩)
      }).size_of_cap_gain = some ⟨1300000, 0⟩ ∧
    (update_user_profile none
      { role := some (.vStr "Investor"), size_of_cap_gain := some (.vStr "-1,300,000")
      }).size_of_cap_gain = some ⟨-1300000, 0⟩ := by decide

/-- C10: when the payload carries no valid role and the stored profile has
no role, `_clean_profile_updates` drops every role-specific field: the
result is exactly the empty mapping (and no exception path is taken). -/
theorem no_role_drops_role_fields (updates : ProfileData) (current_profile_role : Option String)
    (h1 : updates.role ≠ some (.vStr "Developer"))
    (h2 : updates.role ≠ some (.vStr "Investor"))
    (hcur : current_profile_role = none) :
    clean_profile_updates updates current_profile_role = some {} := by
  subst hcur
  have hrv : ¬(updates.role = some (.vStr "Developer") ∨
      updates.role = some (.vStr "Investor")) := by
    rintro (h | h)
    · exact h1 h
    · exact h2 h
  simp [clean_profile_updates, hrv]

/-- C10 witness: the theorem applied to a payload carrying an invalid role
and several role-specific fields, against a role-less profile. -/
theorem no_role_drops_role_fields_witness :
    clean_profile_updates
      { role := some (.vStr "admin"), cap_gain_or_not := some (.vBool true),
        geographical_zone_of_investment := some (.vStr "TX"),
        location_of_development := some (.vStr "Austin") } none = some {} :=
  no_role_drops_role_fields
    { role := some (.vStr "admin"), cap_gain_or_not := some (.vBool true),
      geographical_zone_of_investment := some (.vStr "TX"),
      location_of_development := some (.vStr "Austin") } none
    (by decide) (by decide) rfl
